import Mathlib

/-!
Verification development for the Echofy backend text-analysis pipeline.

Python floats are modelled as rationals (`ℚ`), Python dicts as association
lists, and every external effect (generative LLM calls, evidence-search
adapters, `json.loads`) as an environment-provided function; a Python
exception is an `Except.error`.  Each definition mirrors one function of
the repository, keeping its name.
-/

namespace Echofy

/-- Python `d.get(key, default)` on a `Dict[str, float]` modelled as an
association list. -/
def dictGetD (d : List (String × ℚ)) (key : String) (default : ℚ) : ℚ :=
  match d.lookup key with
  | some v => v
  | none => default

/-- A generative model handle: `none` when the API key is absent
(`llm = None` in the modules), otherwise a function from the prompt to
either the response text or a raised exception's message. -/
def LlmHandle : Type := Option (String → Except String String)

/-- An ASCII whitespace character as recognised by Python's `str.strip`
and the regex class `\s` (space, tab, newline, carriage return, vertical
tab, form feed). -/
def isPySpace (c : Char) : Bool :=
  c == ' ' || c == '\t' || c == '\n' || c == '\x0d' || c == '\x0b' || c == '\x0c'

/-- Python `str.strip()` on a character list: whitespace removed from
both ends. -/
def pyStripChars (cs : List Char) : List Char :=
  List.rdropWhile isPySpace (cs.dropWhile isPySpace)

/-- Python `str.strip()`. -/
def pyStrip (s : String) : String :=
  String.mk (pyStripChars s.data)

/-- Python `str.split('\n')`: the segments between newline characters,
keeping empty segments (always at least one segment). -/
def splitNlChars : List Char → List (List Char)
  | [] => [[]]
  | c :: rest =>
    match splitNlChars rest with
    | [] => [[]]
    | h :: t => if c == '\n' then [] :: h :: t else (c :: h) :: t

/-- Python `str.replace(pat, repl)` on character lists for a non-empty
pattern: every non-overlapping occurrence, scanned left to right, is
replaced. -/
def replaceChars (pat repl : List Char) : List Char → List Char
  | [] => []
  | c :: rest =>
    if h : 0 < pat.length ∧ (c :: rest).take pat.length = pat then
      repl ++ replaceChars pat repl ((c :: rest).drop pat.length)
    else
      c :: replaceChars pat repl rest
termination_by cs => cs.length
decreasing_by
  · simp only [List.length_drop, List.length_cons]
    omega
  · simp only [List.length_cons]
    omega

/-- Python `str.replace(pat, repl)`. -/
def pyReplace (s pat repl : String) : String :=
  String.mk (replaceChars pat.data repl.data s.data)

end Echofy

namespace ScoreAggregation
open Echofy

/-- `SentimentResult` of `sentiment_analysis.py` (the shape consumed by
`aggregate_scores`). -/
structure SentimentResult where
  vader_scores : List (String × ℚ)
  transformer_label : String
  transformer_score : ℚ
  overall_sentiment : String
  notes : String

/-- `SourceAnalysisResult` of `source_analysis.py`. -/
structure SourceAnalysisResult where
  credibility_score : ℚ
  bias_assessment : String
  notes : String

/-- `ClaimVerification` of `score_aggregation.py`: claim text plus final
assessment string. -/
structure ClaimVerification where
  claim : String
  final_assessment : String

/-- `TrustScoreResponse` of `score_aggregation.py`. -/
structure TrustScoreResponse where
  trust_score : ℚ
  summary : String
  factors : List (String × String)

/-- The `WEIGHTS` constant: verification weight. -/
def WEIGHTS_verification : ℚ := 6/10

/-- The `WEIGHTS` constant: sentiment weight. -/
def WEIGHTS_sentiment : ℚ := 2/10

/-- The `WEIGHTS` constant: source-credibility weight. -/
def WEIGHTS_source_credibility : ℚ := 2/10

/-- Python `d.get(key, 'N/A')` on the string-valued factors dict. -/
def factorsGet (factors : List (String × String)) (key : String) : String :=
  match factors.lookup key with
  | some v => v
  | none => "N/A"

/-- `generate_dynamic_summary` of `score_aggregation.py`: static tier
fallback when the model is absent, otherwise a generative call whose
failure yields a fixed unavailable message. -/
def generate_dynamic_summary (llm : LlmHandle) (final_score : ℚ)
    (factors : List (String × String)) : String :=
  match llm with
  | none =>
    if final_score > 7/10 then
      "The text appears to be generally trustworthy, with most claims supported by evidence and neutral language."
    else if final_score > 4/10 then
      "Exercise caution. While some claims are supported, there are indicators of potential bias or unverified information."
    else
      "High skepticism advised. The text contains significant contradictions, biased language, or originates from a source with low credibility."
  | some generate =>
    let prompt :=
      "Analyze the following trust score and contributing factors to provide a final, one-sentence summary for the user. Final Trust Score: "
        ++ toString final_score
        ++ " Verification Factor: " ++ factorsGet factors "verification"
        ++ " Sentiment Factor: " ++ factorsGet factors "sentiment"
        ++ " Source Credibility Factor: " ++ factorsGet factors "source_credibility"
    match generate prompt with
    | Except.ok text => Echofy.pyStrip text
    | Except.error _ => "AI-generated summary is currently unavailable."

/-- The supported-claim count of `aggregate_scores`:
`sum(1 for v in claim_verifications if v.final_assessment == 'SUPPORTED')`. -/
def supported_count (claim_verifications : List ClaimVerification) : ℕ :=
  claim_verifications.countP (fun v => v.final_assessment == "SUPPORTED")

/-- The contradicted-claim count of `aggregate_scores`. -/
def contradicted_count (claim_verifications : List ClaimVerification) : ℕ :=
  claim_verifications.countP (fun v => v.final_assessment == "CONTRADICTED")

/-- The verification score of `aggregate_scores`: `0.0` for an empty list,
otherwise `max(0, supported_count - contradicted_count * 2) / len(...)`
(integer subtraction floored at zero, then true division). -/
def verification_score (claim_verifications : List ClaimVerification) : ℚ :=
  if claim_verifications.isEmpty then 0
  else
    ((max 0 ((supported_count claim_verifications : ℤ)
        - (contradicted_count claim_verifications : ℤ) * 2) : ℤ) : ℚ)
      / (claim_verifications.length : ℚ)

/-- `aggregate_scores` of `score_aggregation.py`. -/
def aggregate_scores (llm : LlmHandle)
    (claim_verifications : List ClaimVerification)
    (sentiment_result : SentimentResult)
    (source_analysis : SourceAnalysisResult) : TrustScoreResponse :=
  let verificationFactor :=
    if claim_verifications.isEmpty then "No claims were verified."
    else toString (supported_count claim_verifications) ++ " supported, "
      ++ toString (contradicted_count claim_verifications)
      ++ " contradicted claims."
  let sentiment_polarity := |dictGetD sentiment_result.vader_scores "compound" 0|
  let sentiment_score : ℚ := 1 - sentiment_polarity
  let source_score := source_analysis.credibility_score
  let factors : List (String × String) :=
    [("verification", verificationFactor),
     ("sentiment", "Sentiment: " ++ sentiment_result.notes),
     ("source_credibility", "Source: " ++ source_analysis.bias_assessment)]
  let final_score :=
    verification_score claim_verifications * WEIGHTS_verification
      + sentiment_score * WEIGHTS_sentiment
      + source_score * WEIGHTS_source_credibility
  let final_score := max 0 (min 1 final_score)
  { trust_score := final_score
    summary := generate_dynamic_summary llm final_score factors
    factors := factors }

end ScoreAggregation

namespace ScoreAggregation

/-- **C1.** `aggregate_scores` returns the clamped weighted combination
`clamp(0, 1, 0.6 * verificationScore + 0.2 * (1 - |compound|) + 0.2 *
credibility_score)`, with `verificationScore = max(0, supported - 2 *
contradicted) / total` for a non-empty list and `0` otherwise; in
particular an empty verification list with compound `0` and credibility
`0.8` yields exactly `0.36`. -/
theorem aggregate_scores_formula :
    (∀ (llm : Echofy.LlmHandle) (cvs : List ClaimVerification)
        (sr : SentimentResult) (sa : SourceAnalysisResult),
      (aggregate_scores llm cvs sr sa).trust_score
        = max 0 (min 1
            ((6:ℚ)/10 * verification_score cvs
              + 2/10 * (1 - |Echofy.dictGetD sr.vader_scores "compound" 0|)
              + 2/10 * sa.credibility_score)))
    ∧ (∀ (cvs : List ClaimVerification),
        (cvs ≠ [] →
          verification_score cvs
            = ((max 0 ((supported_count cvs : ℤ) - 2 * (contradicted_count cvs : ℤ)) : ℤ) : ℚ)
              / (cvs.length : ℚ))
        ∧ (cvs = [] → verification_score cvs = 0))
    ∧ (∀ (llm : Echofy.LlmHandle) (sr : SentimentResult) (sa : SourceAnalysisResult),
        Echofy.dictGetD sr.vader_scores "compound" 0 = 0 →
        sa.credibility_score = 8/10 →
        (aggregate_scores llm [] sr sa).trust_score = 36/100) := by
  refine ⟨?_, ?_, ?_⟩
  · intro llm cvs sr sa
    simp only [aggregate_scores, WEIGHTS_verification, WEIGHTS_sentiment,
      WEIGHTS_source_credibility]
    ring_nf
  · intro cvs
    constructor
    · intro h
      have h' : cvs.isEmpty = false := by
        simp [List.isEmpty_iff, h]
      rw [verification_score, h']
      simp only [Bool.false_eq_true, if_false]
      ring_nf
    · intro h
      simp [verification_score, h]
  · intro llm sr sa hc hcred
    simp only [aggregate_scores, verification_score, List.isEmpty_nil, if_true, hc, hcred,
      WEIGHTS_verification, WEIGHTS_sentiment, WEIGHTS_source_credibility]
    norm_num

/-- Witness for C1: at the concrete empty-list input with compound `0`
and credibility `0.8`, the trust score is exactly `0.36`. -/
theorem aggregate_scores_formula_witness :
    (aggregate_scores none []
      { vader_scores := [("compound", 0)], transformer_label := "POSITIVE",
        transformer_score := 99/100, overall_sentiment := "NEUTRAL", notes := "n" }
      { credibility_score := 8/10, bias_assessment := "b", notes := "n" }).trust_score
      = 36/100 := by
  have h := aggregate_scores_formula.2.2 none
      { vader_scores := [("compound", 0)], transformer_label := "POSITIVE",
        transformer_score := 99/100, overall_sentiment := "NEUTRAL", notes := "n" }
      { credibility_score := 8/10, bias_assessment := "b", notes := "n" }
      (by norm_num [Echofy.dictGetD, List.lookup]) (by norm_num)
  exact h

/-- **C2.** For every list of claim verifications the verification score
lies in `[0, 1]`: the `max`-with-`0` floor is applied before dividing by
the list length, so even contradiction-heavy lists stay in range. -/
theorem verification_score_mem_unitInterval
    (cvs : List ClaimVerification) :
    0 ≤ verification_score cvs ∧ verification_score cvs ≤ 1 := by
  unfold verification_score
  by_cases h : cvs.isEmpty = true
  · simp [h]
  · rw [if_neg h]
    have hlen : 0 < (cvs.length : ℚ) := by
      have : cvs ≠ [] := by
        intro hnil; exact h (by simp [hnil])
      have : 0 < cvs.length := List.length_pos.mpr this
      exact_mod_cast this
    constructor
    · apply div_nonneg _ hlen.le
      have : (0:ℤ) ≤ max 0 ((supported_count cvs : ℤ) - (contradicted_count cvs : ℤ) * 2) :=
        le_max_left 0 _
      exact_mod_cast this
    · rw [div_le_one hlen]
      have hsup : supported_count cvs ≤ cvs.length :=
        List.countP_le_length _
      have hmax : max 0 ((supported_count cvs : ℤ) - (contradicted_count cvs : ℤ) * 2)
          ≤ (cvs.length : ℤ) := by
        apply max_le
        · exact_mod_cast Nat.zero_le _
        · have h1 : (supported_count cvs : ℤ) - (contradicted_count cvs : ℤ) * 2
              ≤ (supported_count cvs : ℤ) := by
            have : (0:ℤ) ≤ (contradicted_count cvs : ℤ) * 2 := by positivity
            omega
          have h2 : (supported_count cvs : ℤ) ≤ (cvs.length : ℤ) := by
            exact_mod_cast hsup
          omega
      exact_mod_cast hmax

end ScoreAggregation

namespace SentimentAnalysis
open Echofy ScoreAggregation

/-- The four scores returned by VADER's `polarity_scores` (always present
in its result dict). -/
structure VaderScores where
  neg : ℚ
  neu : ℚ
  pos : ℚ
  compound : ℚ

/-- The dict VADER actually hands back, as consumed through
`vader_scores[...]` / `vader_scores.get(...)`. -/
def VaderScores.toDict (v : VaderScores) : List (String × ℚ) :=
  [("neg", v.neg), ("neu", v.neu), ("pos", v.pos), ("compound", v.compound)]

/-- Environment of `sentiment_analysis.py`: the module-level
`vader_analyzer`, `sentiment_pipeline` and `llm` singletons, each `none`
after a load failure (the `except` branch sets all of them to `None`). A
loaded analyzer is its (externally computed) text-to-scores function; the
pipeline yields a `(label, score)` pair. -/
structure SentimentEnv where
  vader_analyzer : Option (String → VaderScores)
  sentiment_pipeline : Option (String → String × ℚ)
  llm : LlmHandle

/-- `generate_dynamic_notes` of `sentiment_analysis.py`: static
threshold-based notes when the model is absent, otherwise a generative
call whose failure yields a fixed unavailable message. -/
def generate_dynamic_notes (llm : LlmHandle)
    (vader_scores : List (String × ℚ)) (transformer_label : String) : String :=
  match llm with
  | none =>
    let compound_score := dictGetD vader_scores "compound" 0
    if |compound_score| > 7/10 then
      "Warning: Text has a very strong sentiment polarity, which could be indicative of manipulative or biased language."
    else if dictGetD vader_scores "neu" 1 < 1/2 then
      "Note: Text is highly emotional with low neutrality."
    else
      "No specific manipulative language detected."
  | some generate =>
    let prompt :=
      "Analyze the following sentiment scores from a piece of text and provide a brief, one-sentence explanation of the tone. VADER Compound Score: "
        ++ toString (dictGetD vader_scores "compound" 0)
        ++ " Transformer Classification: " ++ transformer_label
    match generate prompt with
    | Except.ok text => pyStrip text
    | Except.error _ => "AI-generated notes are currently unavailable."

/-- `analyze_sentiment_and_tone` of `sentiment_analysis.py`. -/
def analyze_sentiment_and_tone (env : SentimentEnv) (text : String) :
    SentimentResult :=
  match env.vader_analyzer, env.sentiment_pipeline with
  | some vader, some pipe =>
    let vader_scores := vader text
    let compound_score := vader_scores.compound
    let transformer_result := pipe text
    let transformer_label := transformer_result.1
    let transformer_score := transformer_result.2
    let overall_sentiment :=
      if compound_score > 1/20 ∧ transformer_label = "POSITIVE" then "POSITIVE"
      else if compound_score < -(1/20) ∧ transformer_label = "NEGATIVE" then "NEGATIVE"
      else "NEUTRAL"
    let notes := generate_dynamic_notes env.llm vader_scores.toDict transformer_label
    { vader_scores := vader_scores.toDict
      transformer_label := transformer_label
      transformer_score := transformer_score
      overall_sentiment := overall_sentiment
      notes := notes }
  | _, _ =>
    { vader_scores := [("neg", 0), ("neu", 0), ("pos", 0), ("compound", 0)]
      transformer_label := "UNAVAILABLE"
      transformer_score := 0
      overall_sentiment := "UNKNOWN"
      notes := "Sentiment models could not be loaded." }

/-- **C5.** With both analyzers loaded, the overall tone is POSITIVE iff
the compound polarity exceeds `0.05` and the classifier label is
POSITIVE, NEGATIVE iff the compound is below `-0.05` and the label is
NEGATIVE, and NEUTRAL in every other case — in particular whenever the
two signals disagree. -/
theorem analyze_sentiment_overall_tone (env : SentimentEnv) (text : String)
    (vader : String → VaderScores) (pipe : String → String × ℚ)
    (hv : env.vader_analyzer = some vader)
    (hp : env.sentiment_pipeline = some pipe) :
    ((analyze_sentiment_and_tone env text).overall_sentiment = "POSITIVE"
        ↔ ((vader text).compound > 1/20 ∧ (pipe text).1 = "POSITIVE"))
    ∧ ((analyze_sentiment_and_tone env text).overall_sentiment = "NEGATIVE"
        ↔ ((vader text).compound < -(1/20) ∧ (pipe text).1 = "NEGATIVE"))
    ∧ (¬((vader text).compound > 1/20 ∧ (pipe text).1 = "POSITIVE") →
        ¬((vader text).compound < -(1/20) ∧ (pipe text).1 = "NEGATIVE") →
        (analyze_sentiment_and_tone env text).overall_sentiment = "NEUTRAL") := by
  simp only [analyze_sentiment_and_tone, hv, hp]
  refine ⟨?_, ?_, ?_⟩
  · constructor
    · intro h
      by_contra hc
      rw [if_neg hc] at h
      split_ifs at h <;> simp_all
    · intro h
      rw [if_pos h]
  · constructor
    · intro h
      by_cases h1 : (vader text).compound > 1/20 ∧ (pipe text).1 = "POSITIVE"
      · rw [if_pos h1] at h
        simp at h
      · rw [if_neg h1] at h
        by_contra hc
        rw [if_neg hc] at h
        simp at h
    · intro h
      have h1 : ¬((vader text).compound > 1/20 ∧ (pipe text).1 = "POSITIVE") := by
        intro hc
        have := h.1
        have := hc.1
        linarith
      rw [if_neg h1, if_pos h]
  · intro h1 h2
    rw [if_neg h1, if_neg h2]

/-- Witness for C5: disagreeing signals (strongly positive compound,
NEGATIVE label) collapse to NEUTRAL. -/
theorem analyze_sentiment_overall_tone_witness :
    (analyze_sentiment_and_tone
      { vader_analyzer := some (fun _ => ⟨0, 1/10, 9/10, 9/10⟩),
        sentiment_pipeline := some (fun _ => ("NEGATIVE", 99/100)),
        llm := none } "text").overall_sentiment = "NEUTRAL" := by
  have h := analyze_sentiment_overall_tone
      { vader_analyzer := some (fun _ => ⟨0, 1/10, 9/10, 9/10⟩),
        sentiment_pipeline := some (fun _ => ("NEGATIVE", 99/100)),
        llm := none } "text"
      (fun _ => ⟨0, 1/10, 9/10, 9/10⟩) (fun _ => ("NEGATIVE", 99/100)) rfl rfl
  exact h.2.2 (fun hc => absurd hc.2 (by decide)) (fun hc => absurd hc.1 (by norm_num))

end SentimentAnalysis

namespace SourceAnalysis
open Echofy ScoreAggregation

/-- The `BIASED_SOURCES` registry of `source_analysis.py`. -/
def BIASED_SOURCES : List (String × String) :=
  [("daily-mail.com", "Right-leaning, potential for sensationalism"),
   ("breitbart.com", "Far-right, known for strong political bias"),
   ("theguardian.com", "Left-leaning, generally reliable but with a clear perspective")]

/-- A character allowed in a URL scheme (`scheme_chars` of `urllib.parse`:
letters, digits, `+`, `-`, `.`). -/
def isSchemeChar (c : Char) : Bool :=
  c.isAlpha || c.isDigit || c == '+' || c == '-' || c == '.'

/-- The scheme-stripping step of `urllib.parse.urlsplit`: when the input
has a `:` at position `i > 0`, the first character is an (ASCII) letter
and every character before the `:` is a scheme character, the
`scheme:` prefix is removed. -/
def removeScheme (cs : List Char) : List Char :=
  match cs.findIdx? (· == ':') with
  | some i =>
    if 0 < i ∧ (cs.take i).all isSchemeChar ∧ (cs.headD ' ').isAlpha
    then cs.drop (i + 1) else cs
  | none => cs

/-- `urlparse(url).netloc` as used by `analyze_source`, following
`urllib.parse.urlsplit`: after optional scheme removal, the netloc is
non-empty only when the remainder starts with `//`, and then runs up to
the next `/`, `?` or `#`; a netloc with mismatched square brackets raises
`ValueError("Invalid IPv6 URL")`.  (The WHATWG control-character
preprocessing and the bracketed-host validation of newer CPython are
omitted; all inputs considered here are plain printable ASCII without
brackets-in-hosts.) -/
def urlparse_netloc (url : String) : Except String String :=
  let cs := removeScheme url.data
  if cs.take 2 = ['/', '/'] then
    let netloc := (cs.drop 2).takeWhile
      (fun c => ¬(c = '/' ∨ c = '?' ∨ c = '#'))
    if (netloc.contains '[' && !netloc.contains ']')
        || (netloc.contains ']' && !netloc.contains '[') then
      Except.error "Invalid IPv6 URL"
    else
      Except.ok (String.mk netloc)
  else
    Except.ok ""

/-- The prompt built by `generate_dynamic_assessment`. -/
def assessment_prompt (source_notes : String) (credibility_score : ℚ) : String :=
  "Based on the following information about a news source, provide a brief, one-sentence analysis of its potential bias and reliability. Note: "
    ++ source_notes ++ " Calculated Credibility Score: "
    ++ toString credibility_score

/-- `generate_dynamic_assessment` of `source_analysis.py`: the raw note
when the model is absent, otherwise a generative call whose failure
yields a fixed unavailable message. -/
def generate_dynamic_assessment (llm : LlmHandle) (source_notes : String)
    (credibility_score : ℚ) : String :=
  match llm with
  | none => source_notes
  | some generate =>
    match generate (assessment_prompt source_notes credibility_score) with
    | Except.ok text => pyStrip text
    | Except.error _ => "AI-generated assessment is currently unavailable."

/-- `analyze_source` of `source_analysis.py`. -/
def analyze_source (llm : LlmHandle) (url : Option String)
    (author : Option String) : SourceAnalysisResult :=
  let base : ℚ × String := (8/10, "Source not found in the watchlist.")
  let scored : ℚ × String :=
    match url with
    | none => base
    | some u =>
      match urlparse_netloc u with
      | Except.error _ => base
      | Except.ok domain =>
        if domain ≠ "" then
          match BIASED_SOURCES.lookup domain with
          | some entry =>
            (1/2, "Source domain '" ++ domain ++ "' is on a watchlist: " ++ entry)
          | none => base
        else base
  let credibility_score := scored.1
  let notes := scored.2
  { credibility_score := credibility_score
    bias_assessment := generate_dynamic_assessment llm notes credibility_score
    notes := notes }

/-- **C6.** `analyze_source`: a URL whose parsed domain is a registry key
yields credibility `0.5` with a note quoting that registry entry's text;
a missing URL, a URL whose parse raises, or a domain outside the registry
yields credibility `0.8` with the generic not-on-watchlist note. -/
theorem analyze_source_credibility (llm : LlmHandle) (author : Option String) :
    (∀ u domain entry, urlparse_netloc u = Except.ok domain →
      BIASED_SOURCES.lookup domain = some entry →
      (analyze_source llm (some u) author).credibility_score = 1/2
        ∧ (analyze_source llm (some u) author).notes
            = "Source domain '" ++ domain ++ "' is on a watchlist: " ++ entry)
    ∧ ((analyze_source llm none author).credibility_score = 8/10
        ∧ (analyze_source llm none author).notes = "Source not found in the watchlist.")
    ∧ (∀ u e, urlparse_netloc u = Except.error e →
        (analyze_source llm (some u) author).credibility_score = 8/10
          ∧ (analyze_source llm (some u) author).notes = "Source not found in the watchlist.")
    ∧ (∀ u domain, urlparse_netloc u = Except.ok domain →
        BIASED_SOURCES.lookup domain = none →
        (analyze_source llm (some u) author).credibility_score = 8/10
          ∧ (analyze_source llm (some u) author).notes = "Source not found in the watchlist.") := by
  refine ⟨?_, ?_, ?_, ?_⟩
  · intro u domain entry hparse hlookup
    have hne : domain ≠ "" := by
      intro h0
      rw [h0] at hlookup
      simp [BIASED_SOURCES, List.lookup] at hlookup
    constructor <;> simp [analyze_source, hparse, hne, hlookup]
  · constructor <;> simp [analyze_source]
  · intro u e hparse
    constructor <;> simp [analyze_source, hparse]
  · intro u domain hparse hlookup
    by_cases hne : domain = ""
    · constructor <;> simp [analyze_source, hparse, hne]
    · constructor <;> simp [analyze_source, hparse, hne, hlookup]

/-- Witness for C6: a registry-matching URL gets score `0.5` with the
registry entry quoted, and a no-URL call gets the `0.8` default. -/
theorem analyze_source_credibility_witness :
    ((analyze_source none (some "https://breitbart.com/article") none).credibility_score = 1/2
      ∧ (analyze_source none (some "https://breitbart.com/article") none).notes
          = "Source domain 'breitbart.com' is on a watchlist: Far-right, known for strong political bias")
    ∧ ((analyze_source none none none).credibility_score = 8/10
      ∧ (analyze_source none none none).notes = "Source not found in the watchlist.")
    ∧ ((analyze_source none (some "http://[") none).credibility_score = 8/10) := by
  have h := analyze_source_credibility none none
  refine ⟨?_, h.2.1, ?_⟩
  · have h1 := h.1 "https://breitbart.com/article" "breitbart.com"
        "Far-right, known for strong political bias" rfl rfl
    exact h1
  · exact (h.2.2.1 "http://[" "Invalid IPv6 URL" rfl).1

/-- Counterexample for C9: with a configured generative model whose call
raises, the returned bias assessment is the fixed unavailable message,
not the raw note — the claim that a failing rephrasing step always
returns the raw note verbatim is false. -/
theorem generate_dynamic_assessment_failure_not_verbatim :
    generate_dynamic_assessment (some (fun _ => Except.error "timeout"))
        "Source not found in the watchlist." (8/10)
      = "AI-generated assessment is currently unavailable."
    ∧ ("AI-generated assessment is currently unavailable."
        ≠ "Source not found in the watchlist.") := by
  exact ⟨rfl, by decide⟩

/-- **C9 (amended).** When the generative model is unconfigured (`llm`
absent), the raw registry/default note is returned verbatim; when a
configured generative call raises, the fixed unavailable message is
returned instead (the raw note survives only in the result's `notes`
field). -/
theorem generate_dynamic_assessment_fallbacks :
    (∀ source_notes credibility_score,
      generate_dynamic_assessment none source_notes credibility_score = source_notes)
    ∧ (∀ (generate : String → Except String String) source_notes credibility_score e,
        generate (assessment_prompt source_notes credibility_score) = Except.error e →
        generate_dynamic_assessment (some generate) source_notes credibility_score
          = "AI-generated assessment is currently unavailable.")
    ∧ (∀ llm url author,
        (analyze_source llm url author).notes
          = (analyze_source none url author).bias_assessment) := by
  refine ⟨fun _ _ => rfl, ?_, ?_⟩
  · intro generate source_notes credibility_score e herr
    simp [generate_dynamic_assessment, herr]
  · intro llm url author
    cases url <;> rfl

/-- Witness for C9 (amended): the unconfigured path returns the note
verbatim and the erroring path returns the fixed message. -/
theorem generate_dynamic_assessment_fallbacks_witness :
    generate_dynamic_assessment none "Source not found in the watchlist." (8/10)
      = "Source not found in the watchlist."
    ∧ generate_dynamic_assessment (some (fun _ => Except.error "boom"))
        "note" (1/2)
      = "AI-generated assessment is currently unavailable." := by
  exact ⟨generate_dynamic_assessment_fallbacks.1 "Source not found in the watchlist." (8/10),
    generate_dynamic_assessment_fallbacks.2.1 (fun _ => Except.error "boom") "note" (1/2)
      "boom" rfl⟩

end SourceAnalysis

namespace Verification
open Echofy

/-- A JSON value as produced by `json.loads`. -/
inductive Json where
  | str (s : String)
  | num (q : ℚ)
  | jbool (b : Bool)
  | null
  | arr (items : List Json)
  | obj (fields : List (String × Json))

/-- `VerificationResult` of `verification.py` (never populated by
`verify_claim`, whose `results` list is always left empty). -/
structure VerificationResult where
  source : String
  supports : String
  summary : String
  url : Option String
deriving DecidableEq

/-- `ClaimVerification` of `verification.py`; `sources` is a
`List[Dict[str, str]]`. -/
structure ClaimVerification where
  claim : String
  results : List VerificationResult
  final_assessment : String
  reasoning : String
  corrective_statement : Option String
  supporting_evidence : Option String
  sources : List (List (String × String))
deriving DecidableEq

/-- Environment of `verification.py`: the seven evidence adapters (each a
total function — every adapter catches its own exceptions and returns an
explanatory string), the generative model handle, and `json.loads`
(modelled as an oracle because its input is itself generative output). -/
structure VerifyEnv where
  search_serper : String → String
  search_tavily : String → String
  search_wikipedia : String → String
  search_newsapi_org : String → String
  search_newsdata_io : String → String
  search_google_fact_check : String → String
  search_reddit : String → String
  llm : Option (String → Except String String)
  jsonLoads : String → Except String Json

/-- `search_all_sources` of `verification.py`:
`"\n\n".join(filter(None, results))` over all seven adapters. -/
def search_all_sources (env : VerifyEnv) (query : String) : String :=
  let results := [env.search_serper query, env.search_tavily query,
    env.search_wikipedia query, env.search_newsapi_org query,
    env.search_newsdata_io query, env.search_google_fact_check query,
    env.search_reddit query]
  String.intercalate "\n\n" (results.filter (fun s => s ≠ ""))

/-- The prompt of `generate_alternative_query` for a contradicted claim. -/
def alt_query_prompt_contradicted (claim : String) : String :=
  "The following claim has been contradicted: \x27" ++ claim
    ++ "\x27. Generate a neutral search query to find the correct information or the opposing viewpoint. The query should be objective and suitable for a web search. For example, if the claim is \x27The sky is green\x27, a good query would be \x27what color is the sky\x27. Your query is:"

/-- The prompt of `generate_alternative_query` for a supported claim. -/
def alt_query_prompt_supported (claim : String) : String :=
  "The following claim has been supported: \x27" ++ claim
    ++ "\x27. Generate a search query to find high-quality, primary sources or strong evidence that further validates this claim. For example, if the claim is \x27Water is H2O\x27, a good query would be \x27scientific papers on the chemical composition of water\x27. Your query is:"

/-- `generate_alternative_query` of `verification.py`: assessment-tailored
follow-up query, with static fallbacks when the model is absent or the
call raises. -/
def generate_alternative_query (env : VerifyEnv) (claim assessment : String) :
    String :=
  let fallback :=
    if assessment = "CONTRADICTED" then "opposite of " ++ claim
    else "evidence supporting " ++ claim
  match env.llm with
  | none => fallback
  | some generate =>
    let prompt :=
      if assessment = "CONTRADICTED" then alt_query_prompt_contradicted claim
      else alt_query_prompt_supported claim
    match generate prompt with
    | Except.ok text => pyStrip text
    | Except.error _ => fallback

/-- The prompt of `analyze_alternative_results` for a contradicted claim
(JSON braces of the original f-string written as escapes). -/
def alt_analysis_prompt_contradicted (claim search_results : String) : String :=
  "The original claim was: \"" ++ claim
    ++ "\"\nThis claim was found to be contradicted. The following search results are from a query trying to find the correct information.\nYour task is to synthesize these results into a single, corrected statement. Also, list the top 3 most reliable source URLs that support this correction.\n\nSearch Results:\n---\n"
    ++ search_results
    ++ "\n---\n\nOutput the result as a JSON object with two keys: \"statement\" (the corrected fact) and \"sources\" (a list of up to 3 URLs).\nExample: \x7b\"statement\": \"The sky is blue due to Rayleigh scattering.\", \"sources\": [\"https://science.nasa.gov/sky-color\", \"https://www.britannica.com/story/why-is-the-sky-blue\"]\x7d"

/-- The prompt of `analyze_alternative_results` for a supported claim. -/
def alt_analysis_prompt_supported (claim search_results : String) : String :=
  "The original claim was: \"" ++ claim
    ++ "\"\nThis claim was found to be supported. The following search results are from a query trying to find more evidence.\nYour task is to synthesize these results into a single sentence that summarizes the supporting evidence. Also, list the top 3 most reliable source URLs that provide this evidence.\n\nSearch Results:\n---\n"
    ++ search_results
    ++ "\n---\n\nOutput the result as a JSON object with two keys: \"statement\" (the summary of evidence) and \"sources\" (a list of up to 3 URLs).\nExample: \x7b\"statement\": \"Multiple scientific sources confirm water\x27s chemical formula is H2O, based on experiments by Cavendish and Lavoisier.\", \"sources\": [\"https://chemistry.libretexts.org/Water\", \"https://www.nature.com/articles/s41592-021-01145-3\"]\x7d"

/-- The fallback dict returned by `analyze_alternative_results` when the
model is absent. -/
def alt_analysis_unconfigured : Json :=
  Json.obj [("statement", Json.str "Could not analyze alternative results."),
            ("sources", Json.arr [])]

/-- The fallback dict returned by `analyze_alternative_results` when the
generative call or the JSON parse raises. -/
def alt_analysis_failed : Json :=
  Json.obj [("statement", Json.str "AI analysis of alternative results failed."),
            ("sources", Json.arr [])]

/-- `analyze_alternative_results` of `verification.py`: a generative call
whose response is stripped, has Markdown code fences removed, and is
parsed as JSON; any raised error yields the fixed fallback dict. -/
def analyze_alternative_results (env : VerifyEnv)
    (claim search_results assessment : String) : Json :=
  match env.llm with
  | none => alt_analysis_unconfigured
  | some generate =>
    let prompt :=
      if assessment = "CONTRADICTED" then
        alt_analysis_prompt_contradicted claim search_results
      else alt_analysis_prompt_supported claim search_results
    match generate prompt with
    | Except.error _ => alt_analysis_failed
    | Except.ok text =>
      let cleaned := pyReplace (pyReplace (pyStrip text) "```json" "") "```" ""
      match env.jsonLoads cleaned with
      | Except.error _ => alt_analysis_failed
      | Except.ok j => j

/-- Python `value.get(key)` on a decoded JSON value: returns the entry
(`none` when the key is absent), and raises `AttributeError` when the
value is not a dict. -/
def pyGet (j : Json) (key : String) : Except String (Option Json) :=
  match j with
  | Json.obj fields => Except.ok (fields.lookup key)
  | _ => Except.error "AttributeError: get"

/-- Assignment of a decoded-JSON value to a pydantic `Optional[str]`
field: strings pass through, a missing key or a stored JSON `null` (both
Python `None`) stays `None`, any other type raises a validation error. -/
def pyOptStr : Option Json → Except String (Option String)
  | none => Except.ok none
  | some (Json.str s) => Except.ok (some s)
  | some Json.null => Except.ok none
  | some _ => Except.error "ValidationError"

/-- Python iteration of `analysis.get("sources", [])` into URL strings:
the `[]` default for a missing key, element-wise strings for a list
(non-string elements fail `Dict[str, str]` validation), character-wise
iteration for a string, key iteration for a dict, and a `TypeError` for
any non-iterable value. -/
def pyIterSources : Option Json → Except String (List String)
  | none => Except.ok []
  | some (Json.arr items) =>
    items.mapM (fun j =>
      match j with
      | Json.str s => Except.ok s
      | _ => Except.error "ValidationError")
  | some (Json.str s) => Except.ok (s.data.map (fun c => String.mk [c]))
  | some (Json.obj fields) => Except.ok (fields.map Prod.fst)
  | some _ => Except.error "TypeError: not iterable"

/-- The second-round field extraction of `verify_claim` (lines 304-309):
the corrective/supporting statement from `analysis.get("statement")`
routed by the assessment, plus the cited-source URLs from
`analysis.get("sources", [])`. -/
def second_round_fields (analysis : Json) (final_assessment : String) :
    Except String (Option String × Option String × List String) :=
  match pyGet analysis "statement" with
  | Except.error e => Except.error e
  | Except.ok statementVal =>
    match pyOptStr statementVal with
    | Except.error e => Except.error e
    | Except.ok statement =>
      let corrective_statement :=
        if final_assessment = "CONTRADICTED" then statement else none
      let supporting_evidence :=
        if final_assessment = "CONTRADICTED" then none else statement
      match pyGet analysis "sources" with
      | Except.error e => Except.error e
      | Except.ok sourcesVal =>
        match pyIterSources sourcesVal with
        | Except.error e => Except.error e
        | Except.ok sources =>
          Except.ok (corrective_statement, supporting_evidence, sources)

/-- The verdict prompt of `verify_claim`. -/
def verdict_prompt (claim search_results : String) : String :=
  "Your task is to verify the following claim based on the provided search results.\n\nClaim: \"" ++ claim
    ++ "\"\n\nSearch Results:\n---\n" ++ search_results
    ++ "\n---\n\nBased ONLY on the search results, provide a final assessment: SUPPORTED, CONTRADICTED, or UNCERTAIN.\nThen, on a new line, provide a brief, one-sentence explanation for your assessment based on the information you found."

/-- The verdict parse of `verify_claim` (lines 290-292):
`parts = response.text.strip().split('\n')`, assessment from
`parts[0].strip()`, reasoning from `parts[1].strip()` when a second line
exists and a fixed placeholder otherwise. -/
def parse_verdict (response_text : String) : String × String :=
  let parts := splitNlChars (pyStripChars response_text.data)
  let final_assessment := String.mk (pyStripChars (parts.headD []))
  let reasoning :=
    if parts.length > 1 then String.mk (pyStripChars ((parts.drop 1).headD []))
    else "No reasoning provided."
  (final_assessment, reasoning)

/-- The `except` branch of `verify_claim`: the degraded UNCERTAIN verdict
carrying the exception text. -/
def uncertain_fallback (claim e : String) : ClaimVerification :=
  { claim := claim
    results := []
    final_assessment := "UNCERTAIN"
    reasoning := "An error occurred: " ++ e
    corrective_statement := none
    supporting_evidence := none
    sources := [] }

/-- `verify_claim` of `verification.py`. -/
def verify_claim (env : VerifyEnv) (claim : String) : ClaimVerification :=
  let initial_search_results := search_all_sources env claim
  match env.llm with
  | none => uncertain_fallback claim "Gemini LLM not configured."
  | some generate =>
    match generate (verdict_prompt claim initial_search_results) with
    | Except.error e => uncertain_fallback claim e
    | Except.ok response_text =>
      let parsed := parse_verdict response_text
      let final_assessment := parsed.1
      let reasoning := parsed.2
      if final_assessment = "SUPPORTED" ∨ final_assessment = "CONTRADICTED" then
        let alternative_query := generate_alternative_query env claim final_assessment
        let alternative_results_str := search_all_sources env alternative_query
        let analysis :=
          analyze_alternative_results env claim alternative_results_str final_assessment
        match second_round_fields analysis final_assessment with
        | Except.error e => uncertain_fallback claim e
        | Except.ok fields =>
          { claim := claim
            results := []
            final_assessment := final_assessment
            reasoning := reasoning
            corrective_statement := fields.1
            supporting_evidence := fields.2.1
            sources := fields.2.2.map (fun url => [("url", url)]) }
      else
        { claim := claim
          results := []
          final_assessment := final_assessment
          reasoning := reasoning
          corrective_statement := none
          supporting_evidence := none
          sources := [] }

/-- Unfolding of `verify_claim` when the model is unconfigured. -/
lemma verify_claim_eq_of_none (env : VerifyEnv) (claim : String)
    (hl : env.llm = none) :
    verify_claim env claim
      = uncertain_fallback claim "Gemini LLM not configured." := by
  simp only [verify_claim, hl]

/-- Unfolding of `verify_claim` when the verdict call raises. -/
lemma verify_claim_eq_of_error (env : VerifyEnv) (claim : String)
    (generate : String → Except String String) (e : String)
    (hl : env.llm = some generate)
    (hr : generate (verdict_prompt claim (search_all_sources env claim))
      = Except.error e) :
    verify_claim env claim = uncertain_fallback claim e := by
  simp only [verify_claim, hl, hr]

/-- Unfolding of `verify_claim` when the verdict call answers `r`. -/
lemma verify_claim_eq_of_ok (env : VerifyEnv) (claim : String)
    (generate : String → Except String String) (r : String)
    (hl : env.llm = some generate)
    (hr : generate (verdict_prompt claim (search_all_sources env claim))
      = Except.ok r) :
    verify_claim env claim
      = (if (parse_verdict r).1 = "SUPPORTED" ∨ (parse_verdict r).1 = "CONTRADICTED" then
          match second_round_fields
              (analyze_alternative_results env claim
                (search_all_sources env
                  (generate_alternative_query env claim (parse_verdict r).1))
                (parse_verdict r).1) (parse_verdict r).1 with
          | Except.error e => uncertain_fallback claim e
          | Except.ok fields =>
            { claim := claim
              results := []
              final_assessment := (parse_verdict r).1
              reasoning := (parse_verdict r).2
              corrective_statement := fields.1
              supporting_evidence := fields.2.1
              sources := fields.2.2.map (fun url => [("url", url)]) }
        else
          { claim := claim
            results := []
            final_assessment := (parse_verdict r).1
            reasoning := (parse_verdict r).2
            corrective_statement := none
            supporting_evidence := none
            sources := [] }) := by
  simp only [verify_claim, hl, hr]

/-- The statement routing inside `second_round_fields`: the supporting
field stays `None` on a contradicted assessment, and the corrective field
stays `None` on every other assessment. -/
lemma second_round_fields_routes (analysis : Json) (fa : String)
    (c s : Option String) (srcs : List String)
    (h : second_round_fields analysis fa = Except.ok (c, s, srcs)) :
    (fa = "CONTRADICTED" → s = none) ∧ (fa ≠ "CONTRADICTED" → c = none) := by
  unfold second_round_fields at h
  rcases h1 : pyGet analysis "statement" with e1 | statementVal <;>
      simp only [h1] at h
  · exact absurd h (by simp)
  · rcases h2 : pyOptStr statementVal with e2 | statement <;>
        simp only [h2] at h
    · exact absurd h (by simp)
    · rcases h3 : pyGet analysis "sources" with e3 | sourcesVal <;>
          simp only [h3] at h
      · exact absurd h (by simp)
      · rcases h4 : pyIterSources sourcesVal with e4 | sources <;>
            simp only [h4] at h
        · exact absurd h (by simp)
        · simp only [Except.ok.injEq, Prod.mk.injEq] at h
          obtain ⟨hc, hsup, -⟩ := h
          constructor
          · intro hfa
            rw [← hsup, if_pos hfa]
          · intro hfa
            rw [← hc, if_neg hfa]

/-- **C3.** `verify_claim` degrades instead of raising: when the
generative model is unconfigured, or the classification call raises
(whatever the evidence adapters returned), the result is a well-formed
`ClaimVerification` with assessment `UNCERTAIN` and a reasoning string
describing the failure. -/
theorem verify_claim_degrades_to_uncertain (env : VerifyEnv) (claim : String) :
    (env.llm = none →
      (verify_claim env claim).final_assessment = "UNCERTAIN"
        ∧ (verify_claim env claim).reasoning
            = "An error occurred: Gemini LLM not configured."
        ∧ (verify_claim env claim).claim = claim)
    ∧ (∀ (generate : String → Except String String) (e : String),
        env.llm = some generate →
        generate (verdict_prompt claim (search_all_sources env claim))
          = Except.error e →
        (verify_claim env claim).final_assessment = "UNCERTAIN"
          ∧ (verify_claim env claim).reasoning = "An error occurred: " ++ e
          ∧ (verify_claim env claim).claim = claim) := by
  constructor
  · intro hl
    rw [verify_claim_eq_of_none env claim hl]
    exact ⟨rfl, rfl, rfl⟩
  · intro generate e hl hr
    rw [verify_claim_eq_of_error env claim generate e hl hr]
    exact ⟨rfl, rfl, rfl⟩

/-- Witness for C3: with no model configured the verdict is UNCERTAIN
with the configuration-failure reasoning; with a model whose call raises,
the exception text is reported. -/
theorem verify_claim_degrades_to_uncertain_witness :
    ((verify_claim
        { search_serper := fun _ => "Serper API key not configured."
          search_tavily := fun _ => "Tavily API key not configured."
          search_wikipedia := fun _ => "w"
          search_newsapi_org := fun _ => "n"
          search_newsdata_io := fun _ => "d"
          search_google_fact_check := fun _ => "f"
          search_reddit := fun _ => "r"
          llm := none
          jsonLoads := fun _ => Except.error "unused" } "The Earth is flat.").final_assessment
      = "UNCERTAIN")
    ∧ ((verify_claim
        { search_serper := fun _ => ""
          search_tavily := fun _ => ""
          search_wikipedia := fun _ => ""
          search_newsapi_org := fun _ => ""
          search_newsdata_io := fun _ => ""
          search_google_fact_check := fun _ => ""
          search_reddit := fun _ => ""
          llm := some (fun _ => Except.error "429 rate limited")
          jsonLoads := fun _ => Except.error "unused" } "The Earth is flat.").reasoning
      = "An error occurred: 429 rate limited") := by
  constructor
  · exact ((verify_claim_degrades_to_uncertain
      { search_serper := fun _ => "Serper API key not configured."
        search_tavily := fun _ => "Tavily API key not configured."
        search_wikipedia := fun _ => "w"
        search_newsapi_org := fun _ => "n"
        search_newsdata_io := fun _ => "d"
        search_google_fact_check := fun _ => "f"
        search_reddit := fun _ => "r"
        llm := none
        jsonLoads := fun _ => Except.error "unused" } "The Earth is flat.").1 rfl).1
  · exact ((verify_claim_degrades_to_uncertain
      { search_serper := fun _ => ""
        search_tavily := fun _ => ""
        search_wikipedia := fun _ => ""
        search_newsapi_org := fun _ => ""
        search_newsdata_io := fun _ => ""
        search_google_fact_check := fun _ => ""
        search_reddit := fun _ => ""
        llm := some (fun _ => Except.error "429 rate limited")
        jsonLoads := fun _ => Except.error "unused" } "The Earth is flat.").2
      (fun _ => Except.error "429 rate limited") "429 rate limited" rfl rfl).2.1

/-- **C4.** Field invariants of every `ClaimVerification` produced by
`verify_claim`: a corrective statement only with a CONTRADICTED
assessment, supporting evidence only with a SUPPORTED assessment, and
neither when the assessment is UNCERTAIN. -/
theorem verify_claim_statement_invariants (env : VerifyEnv) (claim : String) :
    ((verify_claim env claim).corrective_statement ≠ none →
      (verify_claim env claim).final_assessment = "CONTRADICTED")
    ∧ ((verify_claim env claim).supporting_evidence ≠ none →
      (verify_claim env claim).final_assessment = "SUPPORTED")
    ∧ ((verify_claim env claim).final_assessment = "UNCERTAIN" →
      (verify_claim env claim).corrective_statement = none
        ∧ (verify_claim env claim).supporting_evidence = none) := by
  cases hl : env.llm with
  | none =>
    rw [verify_claim_eq_of_none env claim hl]
    exact ⟨fun h => absurd rfl h, fun h => absurd rfl h, fun _ => ⟨rfl, rfl⟩⟩
  | some generate =>
    cases hr : generate (verdict_prompt claim (search_all_sources env claim)) with
    | error e =>
      rw [verify_claim_eq_of_error env claim generate e hl hr]
      exact ⟨fun h => absurd rfl h, fun h => absurd rfl h, fun _ => ⟨rfl, rfl⟩⟩
    | ok r =>
      rw [verify_claim_eq_of_ok env claim generate r hl hr]
      by_cases hin : (parse_verdict r).1 = "SUPPORTED" ∨ (parse_verdict r).1 = "CONTRADICTED"
      · rw [if_pos hin]
        cases hs : second_round_fields
            (analyze_alternative_results env claim
              (search_all_sources env
                (generate_alternative_query env claim (parse_verdict r).1))
              (parse_verdict r).1) (parse_verdict r).1 with
        | error e =>
          exact ⟨fun h => absurd rfl h, fun h => absurd rfl h, fun _ => ⟨rfl, rfl⟩⟩
        | ok fields =>
          obtain ⟨hroute1, hroute2⟩ := second_round_fields_routes _ _
            fields.1 fields.2.1 fields.2.2 (by rw [hs])
          refine ⟨?_, ?_, ?_⟩
          · intro hc
            have hc' : fields.1 ≠ none := hc
            show (parse_verdict r).1 = "CONTRADICTED"
            by_contra hfa
            exact hc' (hroute2 hfa)
          · intro hsup
            have hsup' : fields.2.1 ≠ none := hsup
            show (parse_verdict r).1 = "SUPPORTED"
            by_cases hfa : (parse_verdict r).1 = "CONTRADICTED"
            · exact absurd (hroute1 hfa) hsup'
            · rcases hin with h | h
              · exact h
              · exact absurd h hfa
          · intro hu
            have hfa : (parse_verdict r).1 = "UNCERTAIN" := hu
            rcases hin with h | h <;> rw [hfa] at h
            · exact absurd h (by decide)
            · exact absurd h (by decide)
      · rw [if_neg hin]
        exact ⟨fun h => absurd rfl h, fun h => absurd rfl h, fun _ => ⟨rfl, rfl⟩⟩

/-- Witness for C4: an UNCERTAIN verdict (unconfigured model) carries
neither a corrective statement nor supporting evidence. -/
theorem verify_claim_statement_invariants_witness :
    (verify_claim
      { search_serper := fun _ => "s"
        search_tavily := fun _ => "t"
        search_wikipedia := fun _ => "w"
        search_newsapi_org := fun _ => "n"
        search_newsdata_io := fun _ => "d"
        search_google_fact_check := fun _ => "f"
        search_reddit := fun _ => "r"
        llm := none
        jsonLoads := fun _ => Except.error "unused" } "Water is wet.").corrective_statement
      = none
    ∧ (verify_claim
      { search_serper := fun _ => "s"
        search_tavily := fun _ => "t"
        search_wikipedia := fun _ => "w"
        search_newsapi_org := fun _ => "n"
        search_newsdata_io := fun _ => "d"
        search_google_fact_check := fun _ => "f"
        search_reddit := fun _ => "r"
        llm := none
        jsonLoads := fun _ => Except.error "unused" } "Water is wet.").supporting_evidence
      = none := by
  exact (verify_claim_statement_invariants
    { search_serper := fun _ => "s"
      search_tavily := fun _ => "t"
      search_wikipedia := fun _ => "w"
      search_newsapi_org := fun _ => "n"
      search_newsdata_io := fun _ => "d"
      search_google_fact_check := fun _ => "f"
      search_reddit := fun _ => "r"
      llm := none
      jsonLoads := fun _ => Except.error "unused" } "Water is wet.").2.2 rfl

/-- A generative model that answers the verdict prompt with a two-line
SUPPORTED verdict and answers every other prompt with a dummy string. -/
def cexGenerate : String → Except String String :=
  fun p =>
    if p.data.take 9 == "Your task".data then Except.ok "SUPPORTED\nEvidence agrees."
    else Except.ok "ignored"

/-- A decoded alternative-analysis response carrying four source URLs —
the prompt asks for at most 3, but nothing stops the model from returning
more. -/
def cexJson : Json :=
  Json.obj [("statement", Json.str "All good."),
            ("sources", Json.arr [Json.str "https://a.example",
              Json.str "https://b.example", Json.str "https://c.example",
              Json.str "https://d.example"])]

/-- An environment with no evidence adapter configured, the generative
model `cexGenerate`, and a JSON decoder returning `cexJson`. -/
def cexEnv : VerifyEnv :=
  { search_serper := fun _ => "Serper API key not configured."
    search_tavily := fun _ => "Tavily API key not configured."
    search_wikipedia := fun _ => "### Wikipedia Results:\nNo page found."
    search_newsapi_org := fun _ => "NewsAPI.org key not configured."
    search_newsdata_io := fun _ => "Newsdata.io key not configured."
    search_google_fact_check := fun _ => "Google Fact Check API key not configured."
    search_reddit := fun _ => "Reddit API credentials not configured."
    llm := some cexGenerate
    jsonLoads := fun _ => Except.ok cexJson }

/-- **C7.** The verdict parse of `verify_claim` is positional: the
assessment is the trimmed first line of the stripped response and the
reasoning the trimmed second line (a fixed placeholder when no second
line exists), with no keyword search — and whenever the classification
call succeeds (and, for a SUPPORTED/CONTRADICTED first line, the second
round's field extraction succeeds), the returned verdict carries exactly
those two strings. -/
theorem verify_claim_positional_parse (env : VerifyEnv) (claim : String)
    (generate : String → Except String String) (r : String)
    (hl : env.llm = some generate)
    (hr : generate (verdict_prompt claim (search_all_sources env claim))
      = Except.ok r) :
    ((parse_verdict r).1
        = String.mk (pyStripChars ((splitNlChars (pyStripChars r.data)).headD []))
      ∧ (2 ≤ (splitNlChars (pyStripChars r.data)).length →
          (parse_verdict r).2
            = String.mk (pyStripChars
                (((splitNlChars (pyStripChars r.data)).drop 1).headD [])))
      ∧ ((splitNlChars (pyStripChars r.data)).length < 2 →
          (parse_verdict r).2 = "No reasoning provided."))
    ∧ (¬((parse_verdict r).1 = "SUPPORTED" ∨ (parse_verdict r).1 = "CONTRADICTED") →
        (verify_claim env claim).final_assessment = (parse_verdict r).1
          ∧ (verify_claim env claim).reasoning = (parse_verdict r).2)
    ∧ (∀ fields, second_round_fields
          (analyze_alternative_results env claim
            (search_all_sources env
              (generate_alternative_query env claim (parse_verdict r).1))
            (parse_verdict r).1) (parse_verdict r).1 = Except.ok fields →
        (verify_claim env claim).final_assessment = (parse_verdict r).1
          ∧ (verify_claim env claim).reasoning = (parse_verdict r).2) := by
  refine ⟨⟨rfl, ?_, ?_⟩, ?_, ?_⟩
  · intro h2
    show (if (splitNlChars (pyStripChars r.data)).length > 1 then _ else _) = _
    rw [if_pos (by omega)]
  · intro h2
    show (if (splitNlChars (pyStripChars r.data)).length > 1 then _ else _) = _
    rw [if_neg (by omega)]
  · intro hnot
    rw [verify_claim_eq_of_ok env claim generate r hl hr, if_neg hnot]
    exact ⟨rfl, rfl⟩
  · intro fields hfields
    rw [verify_claim_eq_of_ok env claim generate r hl hr]
    by_cases hin : (parse_verdict r).1 = "SUPPORTED" ∨ (parse_verdict r).1 = "CONTRADICTED"
    · rw [if_pos hin, hfields]
      exact ⟨rfl, rfl⟩
    · rw [if_neg hin]
      exact ⟨rfl, rfl⟩

/-- Witness for C7: the concrete two-line response
`"SUPPORTED\nEvidence agrees."` is parsed into its first and second line,
and the returned verdict carries exactly those strings. -/
theorem verify_claim_positional_parse_witness :
    (parse_verdict "SUPPORTED\nEvidence agrees.").1 = "SUPPORTED"
    ∧ (verify_claim cexEnv "The sky is blue.").reasoning = "Evidence agrees."
    ∧ (parse_verdict "UNCERTAIN").2 = "No reasoning provided." := by
  have h := verify_claim_positional_parse cexEnv "The sky is blue."
    cexGenerate "SUPPORTED\nEvidence agrees." rfl rfl
  have h2 := (h.2.2 (none, some "All good.",
    ["https://a.example", "https://b.example", "https://c.example",
     "https://d.example"]) rfl).2
  exact ⟨rfl, h2, rfl⟩

/-- Counterexample for C8: a first-round SUPPORTED assessment whose
alternative-analysis response lists four source URLs produces a
`ClaimVerification` whose cited-sources list has four entries — the
at-most-3 bound is only requested in the prompt, never enforced. -/
theorem verify_claim_sources_uncapped :
    (verify_claim cexEnv "The sky is blue.").final_assessment = "SUPPORTED"
    ∧ ¬((verify_claim cexEnv "The sky is blue.").sources.length ≤ 3) := by
  constructor
  · rfl
  · intro hle
    have h4 : (verify_claim cexEnv "The sky is blue.").sources.length = 4 := rfl
    rw [h4] at hle
    omega

/-- **C8 (amended).** The cited-sources list equals the URL list parsed
from the generative JSON response, one `{"url": ...}` dict per URL, with
no truncation; in particular it has at most 3 entries exactly when the
parsed list does. -/
theorem verify_claim_sources_from_parsed (env : VerifyEnv) (claim : String)
    (generate : String → Except String String) (r : String)
    (fields : Option String × Option String × List String)
    (hl : env.llm = some generate)
    (hr : generate (verdict_prompt claim (search_all_sources env claim))
      = Except.ok r)
    (hin : (parse_verdict r).1 = "SUPPORTED" ∨ (parse_verdict r).1 = "CONTRADICTED")
    (hfields : second_round_fields
      (analyze_alternative_results env claim
        (search_all_sources env
          (generate_alternative_query env claim (parse_verdict r).1))
        (parse_verdict r).1) (parse_verdict r).1 = Except.ok fields) :
    (verify_claim env claim).sources
        = fields.2.2.map (fun url => [("url", url)])
    ∧ (verify_claim env claim).sources.length = fields.2.2.length
    ∧ ((verify_claim env claim).sources.length ≤ 3 ↔ fields.2.2.length ≤ 3) := by
  have hsrc : (verify_claim env claim).sources
      = fields.2.2.map (fun url => [("url", url)]) := by
    rw [verify_claim_eq_of_ok env claim generate r hl hr, if_pos hin, hfields]
  refine ⟨hsrc, ?_, ?_⟩
  · rw [hsrc, List.length_map]
  · rw [hsrc, List.length_map]

/-- Witness for C8 (amended): in the four-URL environment the returned
sources list is exactly the four parsed URLs wrapped as dicts. -/
theorem verify_claim_sources_from_parsed_witness :
    (verify_claim cexEnv "The sky is blue.").sources
      = [[("url", "https://a.example")], [("url", "https://b.example")],
         [("url", "https://c.example")], [("url", "https://d.example")]]
    ∧ (verify_claim cexEnv "The sky is blue.").sources.length = 4 := by
  have h := verify_claim_sources_from_parsed cexEnv "The sky is blue."
    cexGenerate "SUPPORTED\nEvidence agrees."
    (none, some "All good.",
      ["https://a.example", "https://b.example", "https://c.example",
       "https://d.example"])
    rfl rfl (Or.inl rfl) rfl
  exact ⟨h.1, h.2.1⟩

end Verification

namespace TextParser
open Echofy

/-- The character kept by the first substitution of `clean_text`
(`re.sub(r'[^\x20-\x7E\n]', '', text)`): printable ASCII or the
newline. -/
def keepPrintableOrNl (c : Char) : Bool :=
  (0x20 ≤ c.toNat && c.toNat ≤ 0x7E) || c == '\n'

/-- The second substitution of `clean_text`
(`re.sub(r'\s+', ' ', text)`): every maximal run of regex whitespace is
replaced by one space; the flag records whether the scan is inside such a
run. -/
def collapseWsAux : Bool → List Char → List Char
  | _, [] => []
  | prevSpace, c :: rest =>
    if isPySpace c then
      if prevSpace then collapseWsAux true rest
      else ' ' :: collapseWsAux true rest
    else c :: collapseWsAux false rest

/-- `clean_text` of `parser.py`: delete characters outside printable
ASCII other than the newline, collapse whitespace runs to single spaces,
and strip the ends. -/
def clean_text (text : String) : String :=
  let step1 := text.data.filter keepPrintableOrNl
  String.mk (pyStripChars (collapseWsAux false step1))

/-- Every character emitted by the whitespace collapse is either the
space it substitutes or a non-whitespace character of the input. -/
lemma collapseWsAux_mem {c : Char} :
    ∀ (b : Bool) (cs : List Char), c ∈ collapseWsAux b cs →
      c = ' ' ∨ (c ∈ cs ∧ isPySpace c = false) := by
  intro b cs
  induction cs generalizing b with
  | nil => simp [collapseWsAux]
  | cons d rest ih =>
    intro hmem
    simp only [collapseWsAux] at hmem
    by_cases hd : isPySpace d = true
    · rw [if_pos hd] at hmem
      cases b with
      | false =>
        rcases List.mem_cons.mp hmem with h | h
        · exact Or.inl h
        · rcases ih true h with h' | h'
          · exact Or.inl h'
          · exact Or.inr ⟨List.mem_cons_of_mem d h'.1, h'.2⟩
      | true =>
        rcases ih true hmem with h' | h'
        · exact Or.inl h'
        · exact Or.inr ⟨List.mem_cons_of_mem d h'.1, h'.2⟩
    · rw [if_neg hd] at hmem
      rcases List.mem_cons.mp hmem with h | h
      · subst h
        exact Or.inr ⟨List.mem_cons_self c rest, Bool.not_eq_true _ ▸ hd⟩
      · rcases ih false h with h' | h'
        · exact Or.inl h'
        · exact Or.inr ⟨List.mem_cons_of_mem d h'.1, h'.2⟩

/-- Inside a whitespace run the next emitted character is never
whitespace. -/
lemma collapseWsAux_true_head :
    ∀ (cs : List Char) (x : Char),
      (collapseWsAux true cs).head? = some x → isPySpace x = false := by
  intro cs
  induction cs with
  | nil => intro x hx; simp [collapseWsAux] at hx
  | cons d rest ih =>
    intro x hx
    simp only [collapseWsAux] at hx
    by_cases hd : isPySpace d = true
    · rw [if_pos hd] at hx
      exact ih x hx
    · rw [if_neg hd] at hx
      simp only [List.head?_cons, Option.some.injEq] at hx
      subst hx
      exact Bool.not_eq_true _ ▸ hd

/-- The whitespace collapse never emits two adjacent whitespace
characters. -/
lemma collapseWsAux_chain :
    ∀ (b : Bool) (cs : List Char),
      List.Chain' (fun a b => ¬(isPySpace a = true ∧ isPySpace b = true))
        (collapseWsAux b cs) := by
  intro b cs
  induction cs generalizing b with
  | nil => simp [collapseWsAux]
  | cons d rest ih =>
    simp only [collapseWsAux]
    by_cases hd : isPySpace d = true
    · rw [if_pos hd]
      cases b with
      | true =>
        rw [if_pos rfl]
        exact ih true
      | false =>
        rw [if_neg Bool.false_ne_true, List.chain'_cons']
        refine ⟨?_, ih true⟩
        intro y hy hcon
        have hns := collapseWsAux_true_head rest y (Option.mem_def.mp hy)
        rw [hns] at hcon
        exact Bool.false_ne_true hcon.2
    · rw [if_neg hd, List.chain'_cons']
      refine ⟨?_, ih false⟩
      intro y _ hcon
      exact hd hcon.1

/-- Stripping removes only a prefix and a suffix. -/
lemma pyStripChars_isInfix (cs : List Char) : pyStripChars cs <:+: cs :=
  (List.rdropWhile_prefix _ _).isInfix.trans (List.dropWhile_suffix _).isInfix

/-- A stripped list never starts with whitespace. -/
lemma pyStripChars_head (cs : List Char) (x : Char)
    (h : (pyStripChars cs).head? = some x) : isPySpace x = false := by
  unfold pyStripChars at h
  have hne : List.rdropWhile isPySpace (cs.dropWhile isPySpace) ≠ [] := by
    intro hnil; rw [hnil] at h; exact Option.noConfusion h
  have hdne : cs.dropWhile isPySpace ≠ [] := by
    intro hnil
    apply hne
    rw [hnil]
    simp [List.rdropWhile]
  obtain ⟨t, ht⟩ := List.rdropWhile_prefix isPySpace (cs.dropWhile isPySpace)
  have hhead : (cs.dropWhile isPySpace).head? = some x := by
    rw [← ht, List.head?_append_of_ne_nil _ hne]
    exact h
  have hx : (cs.dropWhile isPySpace).head hdne = x := by
    rwa [List.head?_eq_head hdne, Option.some.injEq] at hhead
  rw [← hx]
  exact List.head_dropWhile_not isPySpace cs hdne

/-- A stripped list never ends with whitespace. -/
lemma pyStripChars_last (cs : List Char) (x : Char)
    (h : (pyStripChars cs).getLast? = some x) : isPySpace x = false := by
  unfold pyStripChars at h
  have hne : List.rdropWhile isPySpace (cs.dropWhile isPySpace) ≠ [] := by
    intro hnil; rw [hnil] at h; exact Option.noConfusion h
  have hlast := List.rdropWhile_last_not isPySpace (cs.dropWhile isPySpace) hne
  rw [List.getLast?_eq_getLast_of_ne_nil hne, Option.some.injEq] at h
  rw [← h]
  simpa using hlast

/-- Counterexample for C10: a tab is whitespace and lies outside
`0x20`-`0x7E`, yet `clean_text` deletes it outright instead of collapsing
it to a space — `clean_text "a\tb"` is `"ab"`, not `"a b"` as collapsing
every whitespace run to a single space would demand. -/
theorem clean_text_tab_not_collapsed :
    Echofy.isPySpace '\t' = true
    ∧ ('\t'.toNat < 0x20)
    ∧ clean_text "a\tb" = "ab"
    ∧ clean_text "a\tb" ≠ "a b" := by
  exact ⟨rfl, by decide, rfl, by decide⟩

/-- **C10 (amended).** `clean_text` returns only printable ASCII
(`0x20`-`0x7E`): characters outside that range are deleted except the
newline, which survives deletion and is collapsed with spaces —
whitespace that is itself outside the range (tab, carriage return, ...)
is deleted outright, not replaced by a space; the surviving whitespace
runs are collapsed to single spaces with no leading or trailing
whitespace in the result. -/
theorem clean_text_printable_and_collapsed :
    (∀ (s : String), ∀ c ∈ (clean_text s).data,
      0x20 ≤ c.toNat ∧ c.toNat ≤ 0x7E)
    ∧ (∀ s : String, List.Chain'
        (fun a b => ¬(isPySpace a = true ∧ isPySpace b = true))
        (clean_text s).data)
    ∧ (∀ (s : String) (x : Char),
        ((clean_text s).data.head? = some x → isPySpace x = false)
        ∧ ((clean_text s).data.getLast? = some x → isPySpace x = false))
    ∧ clean_text "  café\n\nx  " = "caf x"
    ∧ clean_text "a\tb" = "ab" := by
  refine ⟨?_, ?_, ?_, rfl, rfl⟩
  · intro s c hc
    have hmem : c ∈ collapseWsAux false (s.data.filter keepPrintableOrNl) :=
      (pyStripChars_isInfix _).sublist.subset hc
    rcases collapseWsAux_mem false _ hmem with h | ⟨hstep, hns⟩
    · subst h
      exact ⟨by decide, by decide⟩
    · have hkeep : keepPrintableOrNl c = true := (List.mem_filter.mp hstep).2
      simp only [keepPrintableOrNl, Bool.or_eq_true, Bool.and_eq_true,
        decide_eq_true_eq, beq_iff_eq] at hkeep
      rcases hkeep with ⟨h1, h2⟩ | hnl
      · exact ⟨h1, h2⟩
      · subst hnl
        simp [isPySpace] at hns
  · intro s
    exact List.Chain'.infix (collapseWsAux_chain false _) (pyStripChars_isInfix _)
  · intro s x
    exact ⟨pyStripChars_head _ x, pyStripChars_last _ x⟩

/-- Witness for C10 (amended): the characters of
`clean_text "  café\n\nx  " = "caf x"` are printable ASCII and the
result neither starts nor ends with whitespace. -/
theorem clean_text_printable_and_collapsed_witness :
    (0x20 ≤ 'c'.toNat ∧ 'c'.toNat ≤ 0x7E)
    ∧ Echofy.isPySpace 'c' = false
    ∧ Echofy.isPySpace 'x' = false := by
  refine ⟨clean_text_printable_and_collapsed.1 "  café\n\nx  " 'c' (by decide), ?_, ?_⟩
  · exact (clean_text_printable_and_collapsed.2.2.1 "  café\n\nx  " 'c').1 rfl
  · exact (clean_text_printable_and_collapsed.2.2.1 "  café\n\nx  " 'x').2 rfl

end TextParser
